import Mathlib

/-!
Verification of the OfferUp scraper pipeline (backend/scraper.py, backend/config.py,
utils.py) against its natural-language specification.  The Python code is shallowly
embedded: JSON values become an inductive `Json` tree, Python dictionaries become
association lists, raised exceptions become `Except` results, and the network and
filesystem are passed in as explicit oracles.
-/

set_option maxRecDepth 4096

namespace Scraper

/-- Shallow embedding of a Python value parsed from JSON (dict / list / str /
int / bool / None).  Numbers are modelled as integers; the scraped payloads the
code navigates carry no floats on any path the claims touch. -/
inductive Json where
  | null : Json
  | bool (b : Bool) : Json
  | num (n : Int) : Json
  | str (s : String) : Json
  | arr (xs : List Json) : Json
  | obj (kvs : List (String × Json)) : Json

/-- Python type name of a value, as used inside Python error messages such as
AttributeError text. -/
def typeName : Json → String
  | .null => "NoneType"
  | .bool _ => "bool"
  | .num _ => "int"
  | .str _ => "str"
  | .arr _ => "list"
  | .obj _ => "dict"

/-- Python truthiness of a value (`if x:`). -/
def pyTruthy : Json → Bool
  | .null => false
  | .bool b => b
  | .num n => !(n == 0)
  | .str s => !(s == "")
  | .arr xs => !xs.isEmpty
  | .obj kvs => !kvs.isEmpty

/-- Python exceptions that can be raised inside a stage body before the stage's
handler reclassifies them.  `keyError` carries `str(e)`, i.e. the repr of the
missing key. -/
inductive PyExc where
  | keyError (r : String) : PyExc
  | parseErrorExc (msg : String) : PyExc
  | jsonDecodeError (msg : String) : PyExc
  | attributeError (msg : String) : PyExc
  | typeErrorExc (msg : String) : PyExc
  | indexError (msg : String) : PyExc
deriving DecidableEq

/-- Python `str(e)` of an in-flight exception. -/
def pyExcStr : PyExc → String
  | .keyError r => r
  | .parseErrorExc m => m
  | .jsonDecodeError m => m
  | .attributeError m => m
  | .typeErrorExc m => m
  | .indexError m => m

/-- The scraper's classified exception hierarchy: InvalidURLError, FetchError and
ParseError, each carrying its message (all derive OfferUpScraperError in the code). -/
inductive ScraperErr where
  | invalidURLError (msg : String) : ScraperErr
  | fetchError (msg : String) : ScraperErr
  | parseError (msg : String) : ScraperErr
deriving DecidableEq

/-- Coarse kind of a classified scraper error: which exception class was raised. -/
inductive ErrKind where
  | invalidURL : ErrKind
  | fetch : ErrKind
  | parse : ErrKind
deriving DecidableEq

/-- Kind (Python class) of a raised `ScraperErr`. -/
def errKind : ScraperErr → ErrKind
  | .invalidURLError _ => .invalidURL
  | .fetchError _ => .fetch
  | .parseError _ => .parse

/-! Configuration constants from backend/config.py. -/

/-- Retry setting `MAX_RETRY_ATTEMPTS = 3` from config.py. -/
def MAX_RETRY_ATTEMPTS : Nat := 3

/-- Retry setting `RETRY_BACKOFF_FACTOR = 2` from config.py. -/
def RETRY_BACKOFF_FACTOR : Nat := 2

/-- Element id `JSON_SCRIPT_ID = "__NEXT_DATA__"` from config.py. -/
def JSON_SCRIPT_ID : String := "__NEXT_DATA__"

/-- Directory `DEFAULT_IMAGE_DIR = "downloaded_images"` from config.py. -/
def DEFAULT_IMAGE_DIR : String := "downloaded_images"

/-! URL utilities from utils.py. -/

/-- Characters stripped by Python `str.strip()`. -/
def pyWsChar (c : Char) : Bool :=
  c == ' ' || c == '\t' || c == '\n' || c == '\r' || c == '\x0b' || c == '\x0c'

/-- List-level Python `str.strip()`: drop whitespace from both ends. -/
def pyStripList (l : List Char) : List Char :=
  ((l.dropWhile pyWsChar).reverse.dropWhile pyWsChar).reverse

/-- Python `str.strip()`. -/
def pyStrip (s : String) : String := ⟨pyStripList s.data⟩

/-- ASCII lowering of one character, the fragment of Python `str.lower()` that
URLs exercise. -/
def lowerChar (c : Char) : Char :=
  if 'A' ≤ c && c ≤ 'Z' then Char.ofNat (c.toNat + 32) else c

/-- Python `str.lower()` restricted to ASCII. -/
def pyLower (s : String) : String := ⟨s.data.map lowerChar⟩

/-- Python `s.startswith(pre)`. -/
def strStartsWith (s pre : String) : Bool := pre.data.isPrefixOf s.data

/-- Scan for an occurrence of `sub` anywhere in the text. -/
def containsScan (sub : List Char) : List Char → Bool
  | [] => sub.isEmpty
  | c :: rest => sub.isPrefixOf (c :: rest) || containsScan sub rest

/-- Python `sub in s` substring containment. -/
def strContains (s sub : String) : Bool := containsScan sub.data s.data

/-- Character class `[a-f0-9-]` of the listing-id regular expression in
utils.extract_listing_id. -/
def isHexHyphenChar (c : Char) : Bool :=
  ('a' ≤ c && c ≤ 'f') || ('0' ≤ c && c ≤ '9') || c == '-'

/-- Test whether the text starts with the literal `/item/detail/` followed by at
least one `[a-f0-9-]` character, i.e. whether the regular expression
`/item/detail/([a-f0-9-]+)` matches at this position. -/
def startsListingPath : List Char → Bool
  | '/' :: 'i' :: 't' :: 'e' :: 'm' :: '/' :: 'd' :: 'e' :: 't' :: 'a' :: 'i' :: 'l' :: '/' :: d :: _ =>
      isHexHyphenChar d
  | _ => false

/-- Leftmost-match scan of `re.search(r'/item/detail/([a-f0-9-]+)', url)`: slide
over the text, and at the first position where the pattern matches take the
greedy `[a-f0-9-]+` capture. -/
def extractScan : List Char → Option (List Char)
  | [] => none
  | c :: rest =>
      if startsListingPath (c :: rest) then
        some (((c :: rest).drop 13).takeWhile isHexHyphenChar)
      else extractScan rest

/-- Embedding of utils.extract_listing_id: the capture of the first regex match,
or None. -/
def extract_listing_id (url : String) : Option String :=
  (extractScan url.data).map List.asString

/-- Embedding of utils.is_valid_offerup_url. -/
def is_valid_offerup_url (url : String) : Bool :=
  if url == "" then false
  else if !(strContains (pyLower url) "offerup.com") then false
  else (extract_listing_id url).isSome

/-- Embedding of scraper.validate_url: reject empty input, strip whitespace,
then require a valid OfferUp listing URL; returns the stripped URL. -/
def validate_url (url : String) : Except ScraperErr String :=
  if url == "" then
    .error (.invalidURLError "URL must be a non-empty string")
  else
    let u := pyStrip url
    if !(is_valid_offerup_url u) then
      .error (.invalidURLError
        "Invalid OfferUp URL. Must be in format: https://offerup.com/item/detail/[listing-id]")
    else .ok u

/-- Collapse each run of underscores to a single underscore, the effect of
`re.sub(r'_+', '_', s)` in utils.sanitize_filename. -/
def collapseUnderscores : List Char → List Char
  | [] => []
  | '_' :: rest => '_' :: collapseUnderscores (rest.dropWhile (· == '_'))
  | c :: rest => c :: collapseUnderscores rest
termination_by l => l.length
decreasing_by
  · have h := List.Sublist.length_le (@List.dropWhile_sublist Char rest (fun x => x == '_'))
    simp only [List.length_cons]
    omega
  · simp only [List.length_cons]
    omega

/-- Embedding of utils.sanitize_filename: drop forbidden characters, turn spaces
into underscores, collapse runs of underscores, truncate, strip underscores. -/
def sanitize_filename (filename : String) (maxLength : Nat := 200) : String :=
  let noBad := filename.data.filter (fun c =>
    !(c == '<' || c == '>' || c == ':' || c == '"' || c == '/' || c == '\\' ||
      c == '|' || c == '?' || c == '*'))
  let underscored := noBad.map (fun c => if c == ' ' then '_' else c)
  let truncated := (collapseUnderscores underscored).take maxLength
  ⟨(truncated.dropWhile (· == '_')).reverse.dropWhile (· == '_') |>.reverse⟩

/-! Python dictionary and sequence primitives used by parse_listing_data. -/

/-- Lookup of a key in an association list (Python dict access order: first
binding wins; payload dictionaries have unique keys). -/
def alistFind (kvs : List (String × Json)) (k : String) : Option Json :=
  (kvs.find? (fun kv => kv.1 == k)).map Prod.snd

/-- Python `d.get(k, default)`: on a dict return the value or the default; on
any other value raise AttributeError as `x.get` does. -/
def jget (j : Json) (k : String) (d : Json) : Except PyExc Json :=
  match j with
  | .obj kvs => .ok ((alistFind kvs k).getD d)
  | _ => .error (.attributeError
      ("\x27" ++ typeName j ++ "\x27 object has no attribute \x27get\x27"))

/-- Python `d[k]` subscription with a string key: KeyError carries `str(e)`,
which is the repr of the key; non-dict values raise TypeError. -/
def jindex (j : Json) (k : String) : Except PyExc Json :=
  match j with
  | .obj kvs =>
      match alistFind kvs k with
      | some v => .ok v
      | none => .error (.keyError ("\x27" ++ k ++ "\x27"))
  | .str _ => .error (.typeErrorExc "string indices must be integers")
  | .arr _ => .error (.typeErrorExc "list indices must be integers or slices, not str")
  | _ => .error (.typeErrorExc
      ("\x27" ++ typeName j ++ "\x27 object is not subscriptable"))

/-- Python `d.keys()` iteration source: available on dicts only. -/
def pyKeys (j : Json) : Except PyExc (List (String × Json)) :=
  match j with
  | .obj kvs => .ok kvs
  | _ => .error (.attributeError
      ("\x27" ++ typeName j ++ "\x27 object has no attribute \x27keys\x27"))

/-- Python `len(x)` for the payload value kinds. -/
def pyLen (j : Json) : Except PyExc Nat :=
  match j with
  | .str s => .ok s.length
  | .arr xs => .ok xs.length
  | .obj kvs => .ok kvs.length
  | _ => .error (.typeErrorExc
      ("object of type \x27" ++ typeName j ++ "\x27 has no len()"))

/-- Python `x[0]` on the possible shapes of a truthy sized value: list head,
first character of a string, KeyError 0 on a dict. -/
def pySub0 (j : Json) : Except PyExc Json :=
  match j with
  | .arr (x :: _) => .ok x
  | .arr [] => .error (.indexError "list index out of range")
  | .str s => .ok (.str (String.mk (s.data.take 1)))
  | _ => .error (.keyError "0")

mutual

/-- Python repr() of a value, for formatting list and dict members. -/
def pyRepr : Json → String
  | .null => "None"
  | .bool true => "True"
  | .bool false => "False"
  | .num n => toString n
  | .str s => "\x27" ++ s ++ "\x27"
  | .arr xs => "[" ++ pyReprSeq xs ++ "]"
  | .obj kvs => "\x7b" ++ pyReprPairs kvs ++ "\x7d"

/-- Comma-joined reprs of list members. -/
def pyReprSeq : List Json → String
  | [] => ""
  | [x] => pyRepr x
  | x :: xs => pyRepr x ++ ", " ++ pyReprSeq xs

/-- Comma-joined reprs of dict items. -/
def pyReprPairs : List (String × Json) → String
  | [] => ""
  | [(k, v)] => "\x27" ++ k ++ "\x27: " ++ pyRepr v
  | (k, v) :: kvs => "\x27" ++ k ++ "\x27: " ++ pyRepr v ++ ", " ++ pyReprPairs kvs

end

/-- Python str() of a value, as an f-string placeholder renders it. -/
def pyFormat : Json → String
  | .null => "None"
  | .bool true => "True"
  | .bool false => "False"
  | .num n => toString n
  | .str s => s
  | .arr xs => "[" ++ pyReprSeq xs ++ "]"
  | .obj kvs => "\x7b" ++ pyReprPairs kvs ++ "\x7d"

/-- Python `s.split(':')[-1]`: text after the last colon. -/
def splitColonLast (s : String) : String :=
  ⟨((s.data.reverse.takeWhile (fun c => !(c == ':')))).reverse⟩

/-- ListingRecord: the result dictionary assembled by parse_listing_data, in the
order the code builds it.  Field values keep their dynamic (Json) type; the code
stores whatever the payload held. -/
structure ListingRecord where
  title : Json
  description : Json
  first_image_url : Json
  price : Json
  location : Json
  seller_name : Json
  listing_id : Json

/-- Image-URL extraction block of parse_listing_data: `first_image_url` starts
as None and is reassigned from `photos[0].detailFull.url` when `photos` is
truthy with positive length; the inner `.get` calls default absent keys to `{}`
and `''` respectively. -/
def photosBlock (photos : Json) : Except PyExc Json :=
  if pyTruthy photos then
    match pyLen photos with
    | .error e => .error e
    | .ok n =>
      if 0 < n then
        match pySub0 photos with
        | .error e => .error e
        | .ok first_photo =>
          match jget first_photo "detailFull" (.obj []) with
          | .error e => .error e
          | .ok detail_full => jget detail_full "url" (.str "")
      else .ok .null
  else .ok .null

/-- Seller-name resolution block of parse_listing_data: read `owner`, take its
`id` when the owner is a dict (otherwise attempt `.get('__ref')`, which raises
AttributeError on every non-dict payload value), and when the id is truthy look
up the sibling `User:<id>` entry's `profile.name` in the initial cache state. -/
def resolveSeller (initial_state listing : Json) : Except PyExc Json :=
  match jget listing "owner" (.obj []) with
  | .error e => .error e
  | .ok owner_ref =>
    let ownerIdRes : Except PyExc Json :=
      match owner_ref with
      | .obj kvs => .ok ((alistFind kvs "id").getD (.str ""))
      | _ =>
        match jget owner_ref "__ref" (.str "") with
        | .error e => .error e
        | .ok r =>
          match r with
          | .str s => .ok (.str (splitColonLast s))
          | _ => .error (.attributeError
              ("\x27" ++ typeName r ++ "\x27 object has no attribute \x27split\x27"))
    match ownerIdRes with
    | .error e => .error e
    | .ok owner_id =>
      if pyTruthy owner_id then
        let owner_key := "User:" ++ pyFormat owner_id
        match initial_state with
        | .obj stKvs =>
          match alistFind stKvs owner_key with
          | some owner_data =>
            match jget owner_data "profile" (.obj []) with
            | .error e => .error e
            | .ok profile => jget profile "name" (.str "")
          | none => .ok (.str "")
        | _ => .error (.typeErrorExc
            ("argument of type \x27" ++ typeName initial_state ++ "\x27 is not iterable"))
      else .ok (.str "")

/-- Body of parse_listing_data before its exception handlers: navigate
props → pageProps → initialApolloState → ROOT_QUERY, find the first key starting
with `listing(`, then extract the record fields in source order. -/
def parseBody (json_data : Json) : Except PyExc ListingRecord :=
  match jindex json_data "props" with
  | .error e => .error e
  | .ok props =>
  match jindex props "pageProps" with
  | .error e => .error e
  | .ok pageProps =>
  match jindex pageProps "initialApolloState" with
  | .error e => .error e
  | .ok initial_state =>
  match jindex initial_state "ROOT_QUERY" with
  | .error e => .error e
  | .ok root_query =>
  match pyKeys root_query with
  | .error e => .error e
  | .ok rqKvs =>
  match rqKvs.find? (fun kv => strStartsWith kv.1 "listing(") with
  | none => .error (.parseErrorExc "Could not find listing data in JSON structure")
  | some kv =>
  match jget kv.2 "title" (.str "") with
  | .error e => .error e
  | .ok title =>
  match jget kv.2 "description" (.str "") with
  | .error e => .error e
  | .ok description =>
  match jget kv.2 "photos" (.arr []) with
  | .error e => .error e
  | .ok photos =>
  match photosBlock photos with
  | .error e => .error e
  | .ok first_image_url =>
  if !(pyTruthy title) then
    .error (.parseErrorExc "Title not found in listing data")
  else
  match jget kv.2 "price" (.str "") with
  | .error e => .error e
  | .ok price =>
  match jget kv.2 "locationDetails" (.obj []) with
  | .error e => .error e
  | .ok locd =>
  match jget locd "locationName" (.str "") with
  | .error e => .error e
  | .ok location =>
  match resolveSeller initial_state kv.2 with
  | .error e => .error e
  | .ok seller_name =>
  match jget kv.2 "listingId" (.str "") with
  | .error e => .error e
  | .ok listing_id =>
    .ok { title := title, description := description,
          first_image_url := first_image_url, price := price,
          location := location, seller_name := seller_name,
          listing_id := listing_id }

/-- Exception handlers of parse_listing_data: `except KeyError` formats the
missing key, every other exception (including the function's own inner
ParseError raises) is rewrapped by `except Exception`. -/
def wrapParseExc : PyExc → ScraperErr
  | .keyError r => .parseError ("Missing expected field in JSON structure: " ++ r)
  | e => .parseError ("Error extracting listing data: " ++ pyExcStr e)

/-- Embedding of scraper.parse_listing_data. -/
def parse_listing_data (json_data : Json) : Except ScraperErr ListingRecord :=
  match parseBody json_data with
  | .ok r => .ok r
  | .error e => .error (wrapParseExc e)

/-! Page fetcher (scraper.fetch_page) over an oracle giving each attempt's
transport outcome. -/

/-- Outcome of one `requests.get` attempt, indexed by the attempt's
`retry_count`: a body on 2xx, an HTTPError status from raise_for_status, a
timeout, a connection error, or another RequestException. -/
inductive AttemptOutcome where
  | success (body : String) : AttemptOutcome
  | httpError (status : Nat) (msg : String) : AttemptOutcome
  | timeout : AttemptOutcome
  | connectionError : AttemptOutcome
  | requestExc (msg : String) : AttemptOutcome
deriving DecidableEq

/-- Result of fetch_page together with the `time.sleep` waits it performed
before each retry, in order. -/
structure FetchTrace where
  result : Except ScraperErr String
  waits : List Nat

/-- Embedding of scraper.fetch_page: classify HTTP errors immediately, retry
only on timeout while `retry_count < MAX_RETRY_ATTEMPTS - 1`, sleeping
`RETRY_BACKOFF_FACTOR ** retry_count` seconds before the recursive call. -/
def fetch_page (oracle : Nat → AttemptOutcome) (retry_count : Nat := 0) : FetchTrace :=
  match oracle retry_count with
  | .success body => ⟨.ok body, []⟩
  | .httpError status msg =>
      if status == 404 then
        ⟨.error (.fetchError "Listing not found (404). It may have been removed."), []⟩
      else if status == 403 then
        ⟨.error (.fetchError "Access forbidden (403). You may be rate-limited."), []⟩
      else if 500 ≤ status then
        ⟨.error (.fetchError ("Server error (" ++ toString status ++ "). Try again later.")), []⟩
      else
        ⟨.error (.fetchError ("HTTP error " ++ toString status ++ ": " ++ msg)), []⟩
  | .timeout =>
      if h : retry_count < MAX_RETRY_ATTEMPTS - 1 then
        let wait_time := RETRY_BACKOFF_FACTOR ^ retry_count
        let rest := fetch_page oracle (retry_count + 1)
        ⟨rest.result, wait_time :: rest.waits⟩
      else
        ⟨.error (.fetchError "Request timed out after multiple attempts"), []⟩
  | .connectionError =>
      ⟨.error (.fetchError "Connection error. Check your internet connection."), []⟩
  | .requestExc msg =>
      ⟨.error (.fetchError ("Request failed: " ++ msg)), []⟩
termination_by MAX_RETRY_ATTEMPTS - retry_count
decreasing_by
  simp only [MAX_RETRY_ATTEMPTS] at h ⊢
  omega

/-! JSON text parsing: a recursive-descent model of `json.loads` covering the
objects, arrays, strings, integers and literals that embedded listing payloads
consist of. -/

/-- JSON whitespace skipping. -/
def jSkipWs (cs : List Char) : List Char :=
  cs.dropWhile (fun c => c == ' ' || c == '\t' || c == '\n' || c == '\r')

/-- Decimal digit test. -/
def isDigitChar (c : Char) : Bool := '0' ≤ c && c ≤ '9'

/-- Parse the remainder of a JSON string literal after the opening quote,
handling the single-character escapes. -/
def parseStringRest : List Char → Except String (String × List Char)
  | [] => .error "Unterminated string"
  | '"' :: rest => .ok ("", rest)
  | '\\' :: e :: rest =>
      match (match e with
             | '"' => some '"'
             | '\\' => some '\\'
             | '/' => some '/'
             | 'n' => some '\n'
             | 't' => some '\t'
             | 'r' => some '\r'
             | 'b' => some '\x08'
             | 'f' => some '\x0c'
             | _ => none) with
      | some c =>
          match parseStringRest rest with
          | .ok (s, rem) => .ok (⟨c :: s.data⟩, rem)
          | .error m => .error m
      | none => .error "Invalid escape"
  | '\\' :: [] => .error "Unterminated string"
  | c :: rest =>
      match parseStringRest rest with
      | .ok (s, rem) => .ok (⟨c :: s.data⟩, rem)
      | .error m => .error m

/-- Digits to a natural number value. -/
def digitsToNat (ds : List Char) : Nat :=
  ds.foldl (fun acc c => acc * 10 + (c.toNat - '0'.toNat)) 0

/-- Parse a JSON integer (optional minus sign then digits). -/
def parseIntTok (cs : List Char) : Except String (Json × List Char) :=
  match cs with
  | '-' :: rest =>
      let ds := rest.takeWhile isDigitChar
      if ds.isEmpty then .error "Expecting value"
      else .ok (.num (-(digitsToNat ds : Int)), rest.drop ds.length)
  | _ =>
      let ds := cs.takeWhile isDigitChar
      if ds.isEmpty then .error "Expecting value"
      else .ok (.num (digitsToNat ds : Int), cs.drop ds.length)

mutual

/-- Parse one JSON value. -/
def parseVal (fuel : Nat) (cs : List Char) : Except String (Json × List Char) :=
  match fuel with
  | 0 => .error "Depth exhausted"
  | fuel + 1 =>
    match jSkipWs cs with
    | [] => .error "Expecting value"
    | 'n' :: 'u' :: 'l' :: 'l' :: rest => .ok (.null, rest)
    | 't' :: 'r' :: 'u' :: 'e' :: rest => .ok (.bool true, rest)
    | 'f' :: 'a' :: 'l' :: 's' :: 'e' :: rest => .ok (.bool false, rest)
    | '"' :: rest =>
        match parseStringRest rest with
        | .ok (s, rem) => .ok (.str s, rem)
        | .error m => .error m
    | '[' :: rest =>
        (match jSkipWs rest with
         | ']' :: rem => .ok (.arr [], rem)
         | other => parseArrItems fuel other)
    | '\x7b' :: rest =>
        (match jSkipWs rest with
         | '\x7d' :: rem => .ok (.obj [], rem)
         | other => parseObjItems fuel other)
    | other => parseIntTok other

/-- Parse the comma-separated items of a non-empty JSON array, starting at the
first item, up to and including the closing bracket. -/
def parseArrItems (fuel : Nat) (cs : List Char) : Except String (Json × List Char) :=
  match fuel with
  | 0 => .error "Depth exhausted"
  | fuel + 1 =>
    match parseVal fuel cs with
    | .error m => .error m
    | .ok (v, rem) =>
      match jSkipWs rem with
      | ',' :: rest =>
          (match parseArrItems fuel rest with
           | .ok (.arr vs, rem2) => .ok (.arr (v :: vs), rem2)
           | .ok _ => .error "Expecting value"
           | .error m => .error m)
      | ']' :: rest => .ok (.arr [v], rest)
      | _ => .error "Expecting comma or bracket"

/-- Parse the comma-separated members of a non-empty JSON object, starting at
the first key, up to and including the closing brace. -/
def parseObjItems (fuel : Nat) (cs : List Char) : Except String (Json × List Char) :=
  match fuel with
  | 0 => .error "Depth exhausted"
  | fuel + 1 =>
    match jSkipWs cs with
    | '"' :: rest =>
        (match parseStringRest rest with
         | .error m => .error m
         | .ok (k, rem) =>
           match jSkipWs rem with
           | ':' :: rest2 =>
               (match parseVal fuel rest2 with
                | .error m => .error m
                | .ok (v, rem2) =>
                  match jSkipWs rem2 with
                  | ',' :: rest3 =>
                      (match parseObjItems fuel rest3 with
                       | .ok (.obj kvs, rem3) => .ok (.obj ((k, v) :: kvs), rem3)
                       | .ok _ => .error "Expecting value"
                       | .error m => .error m)
                  | '\x7d' :: rest3 => .ok (.obj [(k, v)], rest3)
                  | _ => .error "Expecting comma or brace")
           | _ => .error "Expecting colon")
    | _ => .error "Expecting property name"

end

/-- Model of `json.loads`: parse one value, then require only whitespace to
remain. -/
def json_loads (s : String) : Except String Json :=
  match parseVal (s.length + 1) s.data with
  | .error m => .error m
  | .ok (v, rest) =>
      if (jSkipWs rest).isEmpty then .ok v else .error "Extra data"

/-! Payload extractor (scraper.extract_json_data). -/

/-- Model of a parsed script element as BeautifulSoup exposes it: its id
attribute and its `.string` content (None when the tag has no single text
child). -/
structure ScriptTag where
  idAttr : Option String
  content : Option String

/-- Model of the parsed HTML document: its script elements in document order. -/
def HtmlPage : Type := List ScriptTag

/-- Body of extract_json_data before its exception handlers: find the script
tag with the fixed id, require non-empty content, parse it as JSON. -/
def extractBody (page : HtmlPage) : Except PyExc Json :=
  match page.find? (fun t => t.idAttr == some JSON_SCRIPT_ID) with
  | none => .error (.parseErrorExc
      ("Could not find script tag with id=\x27" ++ JSON_SCRIPT_ID ++
       "\x27. Page structure may have changed."))
  | some tag =>
    match tag.content with
    | none => .error (.parseErrorExc "Script tag found but contains no content")
    | some s =>
      if s == "" then .error (.parseErrorExc "Script tag found but contains no content")
      else
        match json_loads s with
        | .error m => .error (.jsonDecodeError m)
        | .ok v => .ok v

/-- Exception handlers of extract_json_data: `except json.JSONDecodeError`
produces the "Failed to parse JSON" message; every other exception (including
the function's own inner ParseError raises) is rewrapped by `except Exception`
as "Unexpected error during parsing". -/
def wrapExtractExc : PyExc → ScraperErr
  | .jsonDecodeError m => .parseError ("Failed to parse JSON: " ++ m)
  | e => .parseError ("Unexpected error during parsing: " ++ pyExcStr e)

/-- Embedding of scraper.extract_json_data. -/
def extract_json_data (page : HtmlPage) : Except ScraperErr Json :=
  match extractBody page with
  | .ok v => .ok v
  | .error e => .error (wrapExtractExc e)

/-! Image download and pipeline orchestration (scraper.download_image,
scraper.scrape_listing). -/

/-- Outcome of the network request and file write inside download_image: either
the image is fetched and written, or a RequestException, or some other
exception (directory creation, mid-stream read, write error). -/
inductive DlOutcome where
  | ok : DlOutcome
  | requestFailed (msg : String) : DlOutcome
  | otherFailed (msg : String) : DlOutcome
deriving DecidableEq

/-- Embedding of scraper.download_image as called by the orchestrator (an
explicit filename, the default save directory): a falsy URL skips the download,
any exception is swallowed to None, success yields the saved path. -/
def download_image (image_url : Json) (filename : String) (dl : DlOutcome) : Option String :=
  if !(pyTruthy image_url) then none
  else
    match dl with
    | .ok => some (DEFAULT_IMAGE_DIR ++ "/" ++ sanitize_filename filename)
    | .requestFailed _ => none
    | .otherFailed _ => none

/-- Environment of one scrape_listing run: the transport outcome of each fetch
attempt, the BeautifulSoup parse of fetched HTML, and the outcome of the image
download. -/
structure ScrapeEnv where
  attempts : Nat → AttemptOutcome
  soup : String → HtmlPage
  download : DlOutcome

/-- Exceptions leaving scrape_listing: a classified scraper error from one of
the four stages, or the TypeError that `sanitize_filename` raises when the
parsed title is not a string. -/
inductive ScrapeExc where
  | scraper (e : ScraperErr) : ScrapeExc
  | typeErrorEsc (msg : String) : ScrapeExc

/-- Result dictionary of scrape_listing: the parsed record, plus the optional
`downloaded_image_path` key (`none` when the key was never added, `some none`
when it was set to None after a failed download). -/
structure ScrapeOutput where
  record : ListingRecord
  downloaded_image_path : Option (Option String)

/-- Stages 1-4 of scrape_listing: validate, fetch, extract, parse. -/
def scrape_pipeline (env : ScrapeEnv) (url : String) : Except ScraperErr ListingRecord :=
  match validate_url url with
  | .error e => .error e
  | .ok _validated =>
    match (fetch_page env.attempts).result with
    | .error e => .error e
    | .ok html =>
      match extract_json_data (env.soup html) with
      | .error e => .error e
      | .ok jd => parse_listing_data jd

/-- Embedding of scraper.scrape_listing: after a successful parse, when the
download flag is set and the record's image URL is truthy, build the filename
from the sanitized title and the listing id and attempt a best-effort download,
recording its result (or None) under `downloaded_image_path`. -/
def scrape_listing (env : ScrapeEnv) (url : String) (download_img : Bool) :
    Except ScrapeExc ScrapeOutput :=
  match scrape_pipeline env url with
  | .error e => .error (.scraper e)
  | .ok rec =>
    if download_img && pyTruthy rec.first_image_url then
      match rec.title with
      | .str t =>
        let filename := sanitize_filename t ++ "_" ++ pyFormat rec.listing_id ++ ".jpg"
        let image_path := download_image rec.first_image_url filename env.download
        .ok ⟨rec, some image_path⟩
      | other => .error (.typeErrorEsc
          ("expected string or bytes-like object, got \x27" ++ typeName other ++ "\x27"))
    else .ok ⟨rec, none⟩

/-! Concrete payloads and environments used to exercise the embedding. -/

/-- Wrap an initialApolloState dictionary in the fixed navigation prefix
props → pageProps → initialApolloState. -/
def mkPayload (st : List (String × Json)) : Json :=
  .obj [("props", .obj [("pageProps", .obj [("initialApolloState", .obj st)])])]

/-- Well-formed payload of the end-to-end scenario: title, price, one photo,
listing id, and nothing else. -/
def payloadC6 : Json :=
  mkPayload [("ROOT_QUERY", .obj [("listing(x)", .obj [
    ("title", .str "Couch"),
    ("price", .str "150"),
    ("photos", .arr [.obj [("detailFull", .obj [("url", .str "http://x/img.jpg")])]]),
    ("listingId", .str "abc123")])])]

/-- Record the code produces for `payloadC6`. -/
def recordC6 : ListingRecord :=
  { title := .str "Couch", description := .str "",
    first_image_url := .str "http://x/img.jpg", price := .str "150",
    location := .str "", seller_name := .str "", listing_id := .str "abc123" }

/-- Payload whose listing owner is the reference object `User:42` and whose
cache state has the sibling `User:42` entry with profile name Jane. -/
def payloadRefJane : Json :=
  mkPayload [("ROOT_QUERY", .obj [("listing(x)", .obj [
               ("title", .str "Sofa"),
               ("owner", .obj [("__ref", .str "User:42")])])]),
             ("User:42", .obj [("profile", .obj [("name", .str "Jane")])])]

/-- Payload whose listing owner is a reference object with no matching sibling
entry in the cache state. -/
def payloadRefNoSibling : Json :=
  mkPayload [("ROOT_QUERY", .obj [("listing(x)", .obj [
    ("title", .str "Sofa"),
    ("owner", .obj [("__ref", .str "User:42")])])])]

/-- Payload whose listing owner is an inline object carrying an id, with the
matching sibling `User:42` entry present. -/
def payloadInlineJane : Json :=
  mkPayload [("ROOT_QUERY", .obj [("listing(x)", .obj [
               ("title", .str "Sofa"),
               ("owner", .obj [("id", .str "42")])])]),
             ("User:42", .obj [("profile", .obj [("name", .str "Jane")])])]

/-- Record parsed from `payloadRefJane` and from `payloadRefNoSibling`: the
seller name stays empty. -/
def recordSellerEmpty : ListingRecord :=
  { title := .str "Sofa", description := .str "", first_image_url := .null,
    price := .str "", location := .str "", seller_name := .str "",
    listing_id := .str "" }

/-- Payload with a non-empty title and one photo entry that lacks the
`detailFull` key. -/
def payloadC3 : Json :=
  mkPayload [("ROOT_QUERY", .obj [("listing(x)", .obj [
    ("title", .str "T"), ("photos", .arr [.obj []])])])]

/-- Payload with a non-empty title and no photos key at all. -/
def payloadNoPhotos : Json :=
  mkPayload [("ROOT_QUERY", .obj [("listing(x)", .obj [("title", .str "T")])])]

/-- Payload whose ROOT_QUERY has no `listing(` key. -/
def payloadNoListing : Json := mkPayload [("ROOT_QUERY", .obj [])]

/-- Payload with a listing object but no title. -/
def payloadNoTitle : Json :=
  mkPayload [("ROOT_QUERY", .obj [("listing(x)", .obj [("price", .str "5")])])]

/-- Final ParseError message of a payload with no `listing(` key, after the
`except Exception` handler rewraps the inner raise. -/
def listingNotFoundMsg : String :=
  "Error extracting listing data: Could not find listing data in JSON structure"

/-- Final ParseError message of a payload whose listing has an empty or missing
title. -/
def titleNotFoundMsg : String :=
  "Error extracting listing data: Title not found in listing data"

/-- Final ParseError message when the page has no `__NEXT_DATA__` script tag. -/
def elementNotFoundMsg : String :=
  "Unexpected error during parsing: Could not find script tag with id=\x27__NEXT_DATA__\x27. Page structure may have changed."

/-- JSON text of a minimal well-formed listing payload, as embedded in a page's
script element. -/
def jsonTextC7 : String :=
  "\x7b\"props\":\x7b\"pageProps\":\x7b\"initialApolloState\":\x7b\"ROOT_QUERY\":\x7b\"listing(a)\":\x7b\"title\":\"T\",\"photos\":[\x7b\"detailFull\":\x7b\"url\":\"u\"\x7d\x7d]\x7d\x7d\x7d\x7d\x7d\x7d"

/-- Record parsed from the payload encoded by `jsonTextC7`. -/
def recordC7 : ListingRecord :=
  { title := .str "T", description := .str "", first_image_url := .str "u",
    price := .str "", location := .str "", seller_name := .str "",
    listing_id := .str "" }

/-- Scrape environment whose fetch succeeds with a fixed page containing
`jsonTextC7` and whose image download fails with a mid-stream network error. -/
def envDlFail : ScrapeEnv :=
  { attempts := fun _ => .success "PAGE",
    soup := fun _ => [⟨some "__NEXT_DATA__", some jsonTextC7⟩],
    download := .requestFailed "connection broken" }

/-- Scrape environment identical to `envDlFail` but with a successful
download. -/
def envDlOk : ScrapeEnv :=
  { attempts := fun _ => .success "PAGE",
    soup := fun _ => [⟨some "__NEXT_DATA__", some jsonTextC7⟩],
    download := .ok }

/-- Valid listing URL used in orchestrator runs. -/
def urlC7 : String := "https://offerup.com/item/detail/4bc65998-e110"

/-- JSON text of a listing payload with no photos key: its parsed record keeps
the null image URL. -/
def jsonTextC10 : String :=
  "\x7b\"props\":\x7b\"pageProps\":\x7b\"initialApolloState\":\x7b\"ROOT_QUERY\":\x7b\"listing(a)\":\x7b\"title\":\"T\"\x7d\x7d\x7d\x7d\x7d\x7d"

/-- Record parsed from the payload encoded by `jsonTextC10`. -/
def recordC10 : ListingRecord :=
  { title := .str "T", description := .str "", first_image_url := .null,
    price := .str "", location := .str "", seller_name := .str "",
    listing_id := .str "" }

/-- Scrape environment serving the photo-less payload, with a download outcome
that would succeed if it were ever attempted. -/
def envC10 : ScrapeEnv :=
  { attempts := fun _ => .success "PAGE",
    soup := fun _ => [⟨some "__NEXT_DATA__", some jsonTextC10⟩],
    download := .ok }

/-! General lemmas about the string primitives. -/

/-- Whitespace characters are not in the listing-id character class. -/
theorem ws_not_hex (c : Char) (h : pyWsChar c = true) : isHexHyphenChar c = false := by
  simp only [pyWsChar, Bool.or_eq_true, beq_iff_eq] at h
  rcases h with ((((h | h) | h) | h) | h) | h <;> subst h <;> rfl

/-- Listing-id characters are not whitespace. -/
theorem hex_not_ws (c : Char) (h : isHexHyphenChar c = true) : pyWsChar c = false := by
  cases hw : pyWsChar c with
  | false => rfl
  | true => rw [ws_not_hex c hw] at h; cases h

/-- The first entry surviving a dropWhile fails the predicate. -/
theorem dropWhile_head_not (p : α → Bool) (c : α) (t : List α) :
    ∀ l : List α, l.dropWhile p = c :: t → p c = false := by
  intro l h
  induction l with
  | nil => cases h
  | cons x xs ih =>
      rw [List.dropWhile_cons] at h
      by_cases hx : p x = true
      · rw [if_pos hx] at h
        exact ih h
      · rw [if_neg hx] at h
        cases h
        exact Bool.not_eq_true _ |>.mp hx

/-- Dropping a prefix twice with the same predicate drops it once. -/
theorem dropWhile_dropWhile (p : α → Bool) (l : List α) :
    (l.dropWhile p).dropWhile p = l.dropWhile p := by
  cases h : l.dropWhile p with
  | nil => rfl
  | cons c t =>
      have hc : p c = false := dropWhile_head_not p c t l h
      exact List.dropWhile_cons_of_neg (by rw [hc]; exact Bool.false_ne_true)

/-- The last entry of a nonempty dropWhile result is the last entry of the
input. -/
theorem getLastQ_dropWhile (p : α → Bool) (l : List α) (h : l.dropWhile p ≠ []) :
    (l.dropWhile p).getLast? = l.getLast? := by
  obtain ⟨pre, hpre⟩ : l.dropWhile p <:+ l := List.dropWhile_suffix p
  conv_rhs => rw [← hpre]
  exact (List.getLast?_append_of_ne_nil pre h).symm

/-- Python strip is idempotent. -/
theorem pyStripList_idem (l : List Char) : pyStripList (pyStripList l) = pyStripList l := by
  show pyStripList (((l.dropWhile pyWsChar).reverse.dropWhile pyWsChar).reverse) = _
  have hheads : ((l.dropWhile pyWsChar).reverse.dropWhile pyWsChar).reverse.head? =
      (l.dropWhile pyWsChar).head? := by
    cases hb : (l.dropWhile pyWsChar).reverse.dropWhile pyWsChar with
    | nil =>
        simp only [List.dropWhile_eq_nil_iff, List.mem_reverse] at hb
        cases ha : l.dropWhile pyWsChar with
        | nil => rfl
        | cons x xs =>
            have h1 : pyWsChar x = true := by
              apply hb
              rw [ha]
              exact List.mem_cons_self x xs
            have h2 : pyWsChar x = false := dropWhile_head_not pyWsChar x xs l ha
            rw [h1] at h2
            cases h2
    | cons c t =>
        rw [List.head?_reverse, ← hb,
          getLastQ_dropWhile pyWsChar _ (by rw [hb]; exact List.cons_ne_nil c t),
          List.getLast?_reverse]
  have hstepA : ((l.dropWhile pyWsChar).reverse.dropWhile pyWsChar).reverse.dropWhile pyWsChar =
      ((l.dropWhile pyWsChar).reverse.dropWhile pyWsChar).reverse := by
    cases hr : ((l.dropWhile pyWsChar).reverse.dropWhile pyWsChar).reverse with
    | nil => rfl
    | cons c t =>
        rw [hr] at hheads
        cases ha : l.dropWhile pyWsChar with
        | nil => rw [ha] at hheads; cases hheads
        | cons x xs =>
            rw [ha] at hheads
            simp only [List.head?_cons, Option.some_inj] at hheads
            have hx : pyWsChar x = false := dropWhile_head_not pyWsChar x xs l ha
            subst hheads
            exact List.dropWhile_cons_of_neg (by rw [hx]; exact Bool.false_ne_true)
  unfold pyStripList
  rw [hstepA, List.reverse_reverse, dropWhile_dropWhile]

/-- Python strip is idempotent (string level). -/
theorem pyStrip_idem (s : String) : pyStrip (pyStrip s) = pyStrip s := by
  obtain ⟨l⟩ := s
  show String.mk (pyStripList (pyStripList l)) = String.mk (pyStripList l)
  rw [pyStripList_idem]

/-- Strip is the identity on a listing URL whose id part is made of listing-id
characters. -/
theorem pyStripList_noop_url (l : List Char) (hne : l ≠ [])
    (hall : ∀ c ∈ l, isHexHyphenChar c = true) :
    pyStripList ("https://offerup.com/item/detail/".data ++ l) =
      "https://offerup.com/item/detail/".data ++ l := by
  unfold pyStripList
  have h1 : ("https://offerup.com/item/detail/".data ++ l).dropWhile pyWsChar =
      "https://offerup.com/item/detail/".data ++ l := rfl
  rw [h1, List.reverse_append]
  cases hr : l.reverse with
  | nil => exact absurd (by simpa using hr) hne
  | cons c t =>
      have hc : isHexHyphenChar c = true := by
        have hmem : c ∈ l.reverse := by rw [hr]; exact List.mem_cons_self c t
        exact hall c (List.mem_reverse.mp hmem)
      rw [List.cons_append]
      rw [List.dropWhile_cons_of_neg (by rw [hex_not_ws c hc]; exact Bool.false_ne_true)]
      rw [← List.cons_append, ← hr, ← List.reverse_append, List.reverse_reverse]

/-- The leftmost-match scan finds no listing path inside the scheme and host
part of an OfferUp URL. -/
theorem extractScan_skip_host (l : List Char) :
    extractScan ("https://offerup.com".data ++ l) = extractScan l := rfl

/-- At the `/item/detail/` segment the scan matches and captures the greedy run
of listing-id characters. -/
theorem extractScan_match (d : Char) (ds : List Char) (hd : isHexHyphenChar d = true) :
    extractScan ("/item/detail/".data ++ d :: ds) =
      some (List.takeWhile isHexHyphenChar (d :: ds)) := by
  have h1 : extractScan ("/item/detail/".data ++ d :: ds) =
      if isHexHyphenChar d = true then some (List.takeWhile isHexHyphenChar (d :: ds))
      else extractScan ("item/detail/".data ++ d :: ds) := rfl
  rw [h1, if_pos hd]

/-- Extraction on a canonical listing URL returns exactly the id. -/
theorem extract_listing_id_url (id : String) (hne : id ≠ "")
    (hall : ∀ c ∈ id.data, isHexHyphenChar c = true) :
    extract_listing_id ("https://offerup.com/item/detail/" ++ id) = some id := by
  obtain ⟨l⟩ := id
  cases hl : l with
  | nil => exact absurd (by rw [hl]) hne
  | cons d ds =>
      subst hl
      have hd : isHexHyphenChar d = true := hall d (List.mem_cons_self d ds)
      have htake : List.takeWhile isHexHyphenChar (d :: ds) = d :: ds :=
        List.takeWhile_eq_self_iff.mpr hall
      show (extractScan (("https://offerup.com/item/detail/" ++ String.mk (d :: ds)).data)).map List.asString = some (String.mk (d :: ds))
      have hdata : ("https://offerup.com/item/detail/" ++ String.mk (d :: ds)).data =
          "https://offerup.com".data ++ ("/item/detail/".data ++ d :: ds) := rfl
      rw [hdata, extractScan_skip_host, extractScan_match d ds hd, htake]
      rfl

/-- The lowered canonical listing URL contains the OfferUp domain. -/
theorem contains_offerup (l : List Char) :
    strContains (pyLower ("https://offerup.com/item/detail/" ++ String.mk l)) "offerup.com" = true := rfl

/-- Validation succeeds on a canonical listing URL, returning it unchanged. -/
theorem validate_url_canonical (id : String) (hne : id ≠ "")
    (hall : ∀ c ∈ id.data, isHexHyphenChar c = true) :
    validate_url ("https://offerup.com/item/detail/" ++ id) =
      .ok ("https://offerup.com/item/detail/" ++ id) := by
  obtain ⟨l⟩ := id
  have hlne : l ≠ [] := by
    intro h
    exact hne (by rw [h])
  have hdata : ("https://offerup.com/item/detail/" ++ String.mk l).data =
      "https://offerup.com/item/detail/".data ++ l := rfl
  have hunne : ("https://offerup.com/item/detail/" ++ String.mk l) ≠ "" := by
    intro h
    have := congrArg String.data h
    rw [hdata] at this
    simp at this
  have hstrip : pyStrip ("https://offerup.com/item/detail/" ++ String.mk l) =
      "https://offerup.com/item/detail/" ++ String.mk l := by
    show String.mk (pyStripList ("https://offerup.com/item/detail/" ++ String.mk l).data) = _
    rw [hdata, pyStripList_noop_url l hlne hall]
    rfl
  have hbeq : (("https://offerup.com/item/detail/" ++ String.mk l) == "") = false :=
    beq_eq_false_iff_ne.mpr hunne
  have hex : extract_listing_id ("https://offerup.com/item/detail/" ++ String.mk l) =
      some (String.mk l) :=
    extract_listing_id_url (String.mk l) hne hall
  have hvalid : is_valid_offerup_url ("https://offerup.com/item/detail/" ++ String.mk l) = true := by
    simp only [is_valid_offerup_url, hbeq, contains_offerup, hex, Bool.not_true,
      Bool.false_eq_true, if_false, Option.isSome_some]
  simp only [validate_url, hbeq, Bool.false_eq_true, if_false, hstrip, hvalid, Bool.not_true]

/-! Claim theorems. -/

/-- C1: the code routes a dict-shaped reference owner into the `id` lookup, so
the payload whose owner is the reference object User:42 with a sibling User:42
profile named Jane parses with an EMPTY seller_name, not "Jane" (the claim's
first half fails on the code); a reference owner with no matching sibling also
yields the empty seller name with no error (the claim's second half holds); the
inline-id owner shape demonstrates that the sibling lookup machinery itself
works. -/
theorem c1_seller_resolution_code :
    parse_listing_data payloadRefJane = .ok recordSellerEmpty ∧
    recordSellerEmpty.seller_name = .str "" ∧
    Json.str "" ≠ Json.str "Jane" ∧
    parse_listing_data payloadRefNoSibling = .ok recordSellerEmpty ∧
    parse_listing_data payloadInlineJane =
      .ok { recordSellerEmpty with seller_name := .str "Jane" } := by
  refine ⟨rfl, rfl, ?_, rfl, rfl⟩
  intro h
  exact absurd (Json.str.inj h) (by decide)

/-- C2 (amended): on repeated timeouts fetch_page makes exactly
MAX_RETRY_ATTEMPTS total attempts, i.e. MAX_RETRY_ATTEMPTS - 1 retries, waiting
RETRY_BACKOFF_FACTOR ^ attempt seconds before each retry (1s then 2s), then
fails with the timeout-exhausted FetchError; a 404, 403 or 5xx response and a
connection error each fail immediately with their classified FetchError and no
retry (no sleeps). -/
theorem c2_retry_policy :
    (∀ oracle : Nat → AttemptOutcome, (∀ n, oracle n = .timeout) →
      fetch_page oracle =
        ⟨.error (.fetchError "Request timed out after multiple attempts"),
         [RETRY_BACKOFF_FACTOR ^ 0, RETRY_BACKOFF_FACTOR ^ 1]⟩) ∧
    (∀ oracle m, oracle 0 = .httpError 404 m →
      fetch_page oracle =
        ⟨.error (.fetchError "Listing not found (404). It may have been removed."), []⟩) ∧
    (∀ oracle m, oracle 0 = .httpError 403 m →
      fetch_page oracle =
        ⟨.error (.fetchError "Access forbidden (403). You may be rate-limited."), []⟩) ∧
    (∀ oracle s m, 500 ≤ s → oracle 0 = .httpError s m →
      fetch_page oracle =
        ⟨.error (.fetchError ("Server error (" ++ toString s ++ "). Try again later.")), []⟩) ∧
    (∀ oracle, oracle 0 = .connectionError →
      fetch_page oracle =
        ⟨.error (.fetchError "Connection error. Check your internet connection."), []⟩) := by
  refine ⟨?_, ?_, ?_, ?_, ?_⟩
  · intro oracle h
    simp [fetch_page, MAX_RETRY_ATTEMPTS, RETRY_BACKOFF_FACTOR, h]
  · intro oracle m h
    simp [fetch_page, h]
  · intro oracle m h
    simp [fetch_page, h]
  · intro oracle s m h5 h
    simp only [fetch_page, h]
    have h404 : (s == 404) = false := by simp only [beq_eq_false_iff_ne]; omega
    have h403 : (s == 403) = false := by simp only [beq_eq_false_iff_ne]; omega
    simp [h404, h403, h5]
  · intro oracle h
    simp [fetch_page, h]

/-- C2 counterexample: under permanent timeout with the default configuration
the code sleeps twice (1s, 2s) — i.e. it performs MAX_RETRY_ATTEMPTS - 1 = 2
retries, not the MAX_RETRY_ATTEMPTS = 3 retries with waits 1s, 2s, 4s that the
claim states. -/
theorem c2_counterexample :
    (fetch_page (fun _ => .timeout)).waits = [1, 2] ∧
    (fetch_page (fun _ => .timeout)).waits.length = MAX_RETRY_ATTEMPTS - 1 ∧
    MAX_RETRY_ATTEMPTS - 1 ≠ MAX_RETRY_ATTEMPTS ∧
    ([1, 2] : List Nat) ≠ [1, 2, 4] := by
  have h : fetch_page (fun _ => .timeout) =
      ⟨.error (.fetchError "Request timed out after multiple attempts"), [1, 2]⟩ := by
    simp [fetch_page, MAX_RETRY_ATTEMPTS, RETRY_BACKOFF_FACTOR]
  rw [h]
  refine ⟨rfl, rfl, by decide, by decide⟩

/-- C2 witness: the retry policy instantiated on concrete oracles — permanent
timeout, an immediate 404, an immediate 403, an immediate 503, and an immediate
connection error. -/
theorem c2_witness :
    fetch_page (fun _ => .timeout) =
      ⟨.error (.fetchError "Request timed out after multiple attempts"), [1, 2]⟩ ∧
    fetch_page (fun _ => .httpError 404 "") =
      ⟨.error (.fetchError "Listing not found (404). It may have been removed."), []⟩ ∧
    fetch_page (fun _ => .httpError 403 "") =
      ⟨.error (.fetchError "Access forbidden (403). You may be rate-limited."), []⟩ ∧
    fetch_page (fun _ => .httpError 503 "") =
      ⟨.error (.fetchError "Server error (503). Try again later."), []⟩ ∧
    fetch_page (fun _ => .connectionError) =
      ⟨.error (.fetchError "Connection error. Check your internet connection."), []⟩ :=
  ⟨c2_retry_policy.1 _ (fun _ => rfl),
   c2_retry_policy.2.1 _ "" rfl,
   c2_retry_policy.2.2.1 _ "" rfl,
   c2_retry_policy.2.2.2.1 _ 503 "" (by decide) rfl,
   c2_retry_policy.2.2.2.2 _ rfl⟩

/-- C6: the well-formed payload with title Couch, price 150, one photo and
listing id abc123 parses to exactly the record with those four values and empty
description, location and seller name. -/
theorem c6_end_to_end :
    parse_listing_data payloadC6 =
      .ok { title := .str "Couch", description := .str "",
            first_image_url := .str "http://x/img.jpg", price := .str "150",
            location := .str "", seller_name := .str "",
            listing_id := .str "abc123" } := rfl

/-- C8: every input whose stripped, lowered form does not contain the OfferUp
domain, or from which no `/item/detail/<hex-hyphen-id>` segment id can be
extracted, fails validation with InvalidURLError; every canonical
`https://offerup.com/item/detail/<id>` URL with a non-empty id of hex digits
and hyphens validates to itself, and extraction yields exactly that id. -/
theorem c8_url_validation :
    (∀ url : String,
      (strContains (pyLower (pyStrip url)) "offerup.com" = false ∨
       extract_listing_id (pyStrip url) = none) →
      ∃ m, validate_url url = .error (.invalidURLError m)) ∧
    (∀ id : String, id ≠ "" → (∀ c ∈ id.data, isHexHyphenChar c = true) →
      validate_url ("https://offerup.com/item/detail/" ++ id) =
          .ok ("https://offerup.com/item/detail/" ++ id) ∧
        extract_listing_id ("https://offerup.com/item/detail/" ++ id) = some id) := by
  constructor
  · intro url h
    by_cases he : (url == "") = true
    · exact ⟨"URL must be a non-empty string", by simp only [validate_url, he, if_true]⟩
    · have he' : (url == "") = false := by
        cases hb : url == ""
        · rfl
        · exact absurd hb he
      have hval : is_valid_offerup_url (pyStrip url) = false := by
        unfold is_valid_offerup_url
        by_cases hse : (pyStrip url == "") = true
        · simp [hse]
        · have hse' : (pyStrip url == "") = false := by
            cases hb : pyStrip url == ""
            · rfl
            · exact absurd hb hse
          rcases h with h | h
          · simp [hse', h]
          · cases hc : strContains (pyLower (pyStrip url)) "offerup.com" <;>
              simp [hse', hc, h]
      refine ⟨"Invalid OfferUp URL. Must be in format: https://offerup.com/item/detail/[listing-id]", ?_⟩
      simp only [validate_url, he', Bool.false_eq_true, if_false, hval, Bool.not_false, if_true]
  · intro id hne hall
    exact ⟨validate_url_canonical id hne hall, extract_listing_id_url id hne hall⟩

/-- C8 witness: a non-OfferUp URL is rejected; the canonical URL with id
4bc6-a1 validates to itself and yields that id. -/
theorem c8_witness :
    (∃ m, validate_url "https://example.com/item/detail/abc" =
      .error (.invalidURLError m)) ∧
    validate_url "https://offerup.com/item/detail/4bc6-a1" =
        .ok "https://offerup.com/item/detail/4bc6-a1" ∧
      extract_listing_id "https://offerup.com/item/detail/4bc6-a1" = some "4bc6-a1" :=
  ⟨c8_url_validation.1 "https://example.com/item/detail/abc" (Or.inl (by decide)),
   c8_url_validation.2 "4bc6-a1" (by decide) (by decide)⟩

/-- C9: validation is idempotent — a URL accepted by validate_url, when
validated again (the returned string itself), is accepted and carries the same
extracted listing identifier both times. -/
theorem c9_idempotent (url v : String) (h : validate_url url = .ok v) :
    validate_url v = .ok v ∧ extract_listing_id v = extract_listing_id (pyStrip url) := by
  have he' : (url == "") = false := by
    cases hb : url == ""
    · rfl
    · rw [validate_url, if_pos (by rw [hb])] at h
      cases h
  rw [validate_url, if_neg (by rw [he']; exact Bool.false_ne_true)] at h
  cases hv : is_valid_offerup_url (pyStrip url) with
  | false =>
      rw [if_pos (by rw [hv]; rfl)] at h
      cases h
  | true =>
      rw [if_neg (by rw [hv]; exact fun hcl => Bool.false_ne_true (by simp at hcl))] at h
      have hveq : pyStrip url = v := by
        cases h
        rfl
      subst hveq
      refine ⟨?_, rfl⟩
      have hvne : (pyStrip url == "") = false := by
        cases hb : pyStrip url == ""
        · rfl
        · rw [beq_iff_eq] at hb
          rw [hb] at hv
          cases hv
      rw [validate_url, if_neg (by rw [hvne]; exact Bool.false_ne_true)]
      rw [pyStrip_idem, if_neg (by rw [hv]; exact fun hcl => Bool.false_ne_true (by simp at hcl))]

/-- C9 witness: idempotence instantiated on a whitespace-padded valid URL. -/
theorem c9_witness :
    validate_url "https://offerup.com/item/detail/abc-1" =
        .ok "https://offerup.com/item/detail/abc-1" ∧
      extract_listing_id "https://offerup.com/item/detail/abc-1" =
        extract_listing_id (pyStrip "  https://offerup.com/item/detail/abc-1  ") :=
  c9_idempotent "  https://offerup.com/item/detail/abc-1  "
    "https://offerup.com/item/detail/abc-1" rfl

/-- C7: when the pipeline parses successfully, download was requested, the
record's image URL is truthy (present and non-null) and the parsed title is a
string, a failing image download never fails the run: scrape_listing still
returns the parsed record unchanged, with downloaded_image_path present and
null, and raises nothing. -/
theorem c7_download_never_fatal (env : ScrapeEnv) (url : String)
    (rec : ListingRecord) (t : String)
    (hpipe : scrape_pipeline env url = .ok rec)
    (htitle : rec.title = .str t)
    (himg : pyTruthy rec.first_image_url = true)
    (hdl : env.download ≠ .ok) :
    scrape_listing env url true = .ok ⟨rec, some none⟩ := by
  have hdown : ∀ fname, download_image rec.first_image_url fname env.download = none := by
    intro fname
    unfold download_image
    rw [himg]
    cases hdto : env.download with
    | ok => exact absurd hdto hdl
    | requestFailed m => rfl
    | otherFailed m => rfl
  unfold scrape_listing
  rw [hpipe]
  simp only [himg, Bool.true_and, if_true, htitle, hdown]

/-- C7 witness: the download-failure environment run end to end on a valid URL
and a well-formed page; the record survives with a null downloaded_image_path. -/
theorem c7_witness :
    scrape_pipeline envDlFail urlC7 = .ok recordC7 ∧
    recordC7.title = .str "T" ∧
    pyTruthy recordC7.first_image_url = true ∧
    envDlFail.download ≠ .ok ∧
    scrape_listing envDlFail urlC7 true = .ok ⟨recordC7, some none⟩ := by
  have hf : fetch_page envDlFail.attempts = ⟨.ok "PAGE", []⟩ := by
    simp [fetch_page, envDlFail]
  have hpipe : scrape_pipeline envDlFail urlC7 = .ok recordC7 := by
    unfold scrape_pipeline
    rw [hf]
    rfl
  have hdl : envDlFail.download ≠ .ok := by
    intro h
    cases h
  exact ⟨hpipe, rfl, rfl, hdl,
    c7_download_never_fatal envDlFail urlC7 recordC7 "T" hpipe rfl rfl hdl⟩

/-- C10: on a successful pipeline run, when download was not requested, or was
requested but the parsed image URL is null, the result has no
downloaded_image_path key at all and the other seven fields are exactly the
parse_listing_data record. -/
theorem c10_no_download_frame (env : ScrapeEnv) (url : String) (rec : ListingRecord)
    (hpipe : scrape_pipeline env url = .ok rec) :
    scrape_listing env url false = .ok ⟨rec, none⟩ ∧
    (rec.first_image_url = Json.null → scrape_listing env url true = .ok ⟨rec, none⟩) := by
  constructor
  · unfold scrape_listing
    rw [hpipe]
    simp only [Bool.false_and, Bool.false_eq_true, if_false]
  · intro hnull
    unfold scrape_listing
    rw [hpipe]
    simp only [hnull, pyTruthy, Bool.and_false, Bool.false_eq_true, if_false]

/-- C10 witness: a run with download not requested keeps the key absent, and a
run with download requested but a photo-less payload (null image URL) also
keeps the key absent. -/
theorem c10_witness :
    scrape_listing envDlOk urlC7 false = .ok ⟨recordC7, none⟩ ∧
    scrape_listing envC10 urlC7 true = .ok ⟨recordC10, none⟩ := by
  have hfOk : fetch_page envDlOk.attempts = ⟨.ok "PAGE", []⟩ := by
    simp [fetch_page, envDlOk]
  have hpipeOk : scrape_pipeline envDlOk urlC7 = .ok recordC7 := by
    unfold scrape_pipeline
    rw [hfOk]
    rfl
  have hf10 : fetch_page envC10.attempts = ⟨.ok "PAGE", []⟩ := by
    simp [fetch_page, envC10]
  have hpipe10 : scrape_pipeline envC10 urlC7 = .ok recordC10 := by
    unfold scrape_pipeline
    rw [hf10]
    rfl
  exact ⟨(c10_no_download_frame envDlOk urlC7 recordC7 hpipeOk).1,
    (c10_no_download_frame envC10 urlC7 recordC10 hpipe10).2 rfl⟩

/-- The head character of a "Failed to parse JSON: " message. -/
theorem headQ_failed_json (m : String) :
    ("Failed to parse JSON: " ++ m).data.head? = some 'F' := by
  obtain ⟨l⟩ := m
  rfl

/-- C4 counterexample: the element-not-found extraction failure and the
listing-key-not-found parse failure are raised with the SAME exception kind
(ParseError); the code has no ExtractionFailure class distinct from the
ParseFailure class. -/
theorem c4_counterexample :
    extract_json_data ([] : HtmlPage) = .error (.parseError elementNotFoundMsg) ∧
    parse_listing_data payloadNoListing = .error (.parseError listingNotFoundMsg) ∧
    errKind (ScraperErr.parseError elementNotFoundMsg) =
      errKind (ScraperErr.parseError listingNotFoundMsg) :=
  ⟨rfl, rfl, rfl⟩

/-- C4 (amended): a page without the fixed-id script element fails extraction
with the element-not-found message, a page whose script element holds
non-empty malformed JSON fails with a "Failed to parse JSON" message, and the
two messages are distinguishable from each other and from the listing-parse
failure messages; but all of these failures are raised as the one ParseError
kind — extraction and parse failures are distinguishable only by message, not
by exception class. -/
theorem c4_extraction_failures :
    (∀ page : HtmlPage,
      page.find? (fun t => t.idAttr == some JSON_SCRIPT_ID) = none →
      extract_json_data page = .error (.parseError elementNotFoundMsg)) ∧
    (∀ (page : HtmlPage) (tag : ScriptTag) (s m : String),
      page.find? (fun t => t.idAttr == some JSON_SCRIPT_ID) = some tag →
      tag.content = some s → s ≠ "" → json_loads s = .error m →
      extract_json_data page = .error (.parseError ("Failed to parse JSON: " ++ m))) ∧
    (∀ m, ("Failed to parse JSON: " ++ m) ≠ elementNotFoundMsg) ∧
    (elementNotFoundMsg ≠ listingNotFoundMsg ∧ elementNotFoundMsg ≠ titleNotFoundMsg) ∧
    (∀ m, ("Failed to parse JSON: " ++ m) ≠ listingNotFoundMsg ∧
          ("Failed to parse JSON: " ++ m) ≠ titleNotFoundMsg) ∧
    (∀ (page : HtmlPage) (e : ScraperErr),
      extract_json_data page = .error e → errKind e = .parse) ∧
    (∀ (j : Json) (e : ScraperErr),
      parse_listing_data j = .error e → errKind e = .parse) := by
  refine ⟨?_, ?_, ?_, ⟨by decide, by decide⟩, ?_, ?_, ?_⟩
  · intro page h
    unfold extract_json_data extractBody
    rw [h]
    rfl
  · intro page tag s m hfind hcontent hne hloads
    unfold extract_json_data extractBody
    simp only [hfind, hcontent, beq_eq_false_iff_ne.mpr hne, Bool.false_eq_true, if_false, hloads]
    rfl
  · intro m h
    have h1 : ("Failed to parse JSON: " ++ m).data.head? = elementNotFoundMsg.data.head? := by
      rw [h]
    rw [headQ_failed_json] at h1
    exact absurd h1 (by decide)
  · intro m
    constructor
    · intro h
      have h1 : ("Failed to parse JSON: " ++ m).data.head? = listingNotFoundMsg.data.head? := by
        rw [h]
      rw [headQ_failed_json] at h1
      exact absurd h1 (by decide)
    · intro h
      have h1 : ("Failed to parse JSON: " ++ m).data.head? = titleNotFoundMsg.data.head? := by
        rw [h]
      rw [headQ_failed_json] at h1
      exact absurd h1 (by decide)
  · intro page e h
    unfold extract_json_data at h
    cases hb : extractBody page with
    | ok v =>
        simp only [hb] at h
        cases h
    | error pe =>
        simp only [hb] at h
        cases h
        cases pe <;> rfl
  · intro j e h
    unfold parse_listing_data at h
    cases hb : parseBody j with
    | ok r =>
        simp only [hb] at h
        cases h
    | error pe =>
        simp only [hb] at h
        cases h
        cases pe <;> rfl

/-- C4 witness: the empty page triggers the element-not-found failure, a page
holding malformed JSON triggers the decode failure, and both are ParseError
kinded. -/
theorem c4_witness :
    extract_json_data ([] : HtmlPage) = .error (.parseError elementNotFoundMsg) ∧
    extract_json_data ([⟨some "__NEXT_DATA__", some "\x7bbad"⟩] : HtmlPage) =
      .error (.parseError ("Failed to parse JSON: " ++ "Expecting property name")) ∧
    ("Failed to parse JSON: " ++ "Expecting property name") ≠ elementNotFoundMsg ∧
    errKind (.parseError elementNotFoundMsg) = .parse :=
  ⟨c4_extraction_failures.1 [] rfl,
   c4_extraction_failures.2.1 [⟨some "__NEXT_DATA__", some "\x7bbad"⟩]
     ⟨some "__NEXT_DATA__", some "\x7bbad"⟩ "\x7bbad" "Expecting property name"
     rfl rfl (by decide) rfl,
   c4_extraction_failures.2.2.1 "Expecting property name",
   c4_extraction_failures.2.2.2.2.2.1 [] (.parseError elementNotFoundMsg)
     (c4_extraction_failures.1 [] rfl)⟩

/-- Whatever shape the photos value has, the image-extraction block either
succeeds or raises an exception whose rewrapped message differs from the
listing-key-not-found message. -/
theorem photosBlock_not_nf (phv : Json) :
    (∃ v, photosBlock phv = .ok v) ∨
    (∃ pe, photosBlock phv = .error pe ∧
           wrapParseExc pe ≠ .parseError listingNotFoundMsg) := by
  cases phv with
  | null => exact Or.inl ⟨.null, rfl⟩
  | bool b =>
      cases b
      · exact Or.inl ⟨.null, rfl⟩
      · exact Or.inr ⟨.typeErrorExc "object of type \x27bool\x27 has no len()", rfl, by decide⟩
  | num n =>
      by_cases hn : (n == 0) = true
      · refine Or.inl ⟨.null, ?_⟩
        simp only [photosBlock, pyTruthy, hn, Bool.not_true, Bool.false_eq_true, if_false]
      · have hn' : (n == 0) = false := by
          cases hq : n == 0
          · rfl
          · exact absurd hq hn
        refine Or.inr ⟨.typeErrorExc "object of type \x27int\x27 has no len()", ?_, by decide⟩
        simp only [photosBlock, pyTruthy, hn', Bool.not_false, if_true, pyLen]
        rfl
  | str s =>
      by_cases hs : (s == "") = true
      · refine Or.inl ⟨.null, ?_⟩
        simp only [photosBlock, pyTruthy, hs, Bool.not_true, Bool.false_eq_true, if_false]
      · have hs' : (s == "") = false := by
          cases hq : s == ""
          · rfl
          · exact absurd hq hs
        by_cases hlen : 0 < s.length
        · refine Or.inr ⟨.attributeError "\x27str\x27 object has no attribute \x27get\x27",
            ?_, by decide⟩
          simp only [photosBlock, pyTruthy, hs', Bool.not_false, if_true, pyLen, hlen,
            pySub0, jget]
          rfl
        · refine Or.inl ⟨.null, ?_⟩
          simp only [photosBlock, pyTruthy, hs', Bool.not_false, if_true, pyLen, hlen, if_false]
  | arr xs =>
      cases xs with
      | nil => exact Or.inl ⟨.null, rfl⟩
      | cons x xt =>
          have hpos : 0 < (x :: xt).length := by simp
          cases x with
          | obj fkvs =>
              cases hdv : (alistFind fkvs "detailFull").getD (.obj []) with
              | obj dkvs =>
                  refine Or.inl ⟨(alistFind dkvs "url").getD (.str ""), ?_⟩
                  simp only [photosBlock, pyTruthy, List.isEmpty_cons, Bool.not_false,
                    if_true, pyLen, hpos, pySub0, jget, hdv]
              | null =>
                  refine Or.inr ⟨.attributeError "\x27NoneType\x27 object has no attribute \x27get\x27", ?_, by decide⟩
                  simp only [photosBlock, pyTruthy, List.isEmpty_cons, Bool.not_false,
                    if_true, pyLen, hpos, pySub0, jget, hdv, typeName]
                  rfl
              | bool b2 =>
                  refine Or.inr ⟨.attributeError "\x27bool\x27 object has no attribute \x27get\x27", ?_, by decide⟩
                  simp only [photosBlock, pyTruthy, List.isEmpty_cons, Bool.not_false,
                    if_true, pyLen, hpos, pySub0, jget, hdv, typeName]
                  rfl
              | num n2 =>
                  refine Or.inr ⟨.attributeError "\x27int\x27 object has no attribute \x27get\x27", ?_, by decide⟩
                  simp only [photosBlock, pyTruthy, List.isEmpty_cons, Bool.not_false,
                    if_true, pyLen, hpos, pySub0, jget, hdv, typeName]
                  rfl
              | str s2 =>
                  refine Or.inr ⟨.attributeError "\x27str\x27 object has no attribute \x27get\x27", ?_, by decide⟩
                  simp only [photosBlock, pyTruthy, List.isEmpty_cons, Bool.not_false,
                    if_true, pyLen, hpos, pySub0, jget, hdv, typeName]
                  rfl
              | arr ys =>
                  refine Or.inr ⟨.attributeError "\x27list\x27 object has no attribute \x27get\x27", ?_, by decide⟩
                  simp only [photosBlock, pyTruthy, List.isEmpty_cons, Bool.not_false,
                    if_true, pyLen, hpos, pySub0, jget, hdv, typeName]
                  rfl
          | null =>
              refine Or.inr ⟨.attributeError "\x27NoneType\x27 object has no attribute \x27get\x27", ?_, by decide⟩
              simp only [photosBlock, pyTruthy, List.isEmpty_cons, Bool.not_false,
                if_true, pyLen, hpos, pySub0, jget, typeName]
              rfl
          | bool b2 =>
              refine Or.inr ⟨.attributeError "\x27bool\x27 object has no attribute \x27get\x27", ?_, by decide⟩
              simp only [photosBlock, pyTruthy, List.isEmpty_cons, Bool.not_false,
                if_true, pyLen, hpos, pySub0, jget, typeName]
              rfl
          | num n2 =>
              refine Or.inr ⟨.attributeError "\x27int\x27 object has no attribute \x27get\x27", ?_, by decide⟩
              simp only [photosBlock, pyTruthy, List.isEmpty_cons, Bool.not_false,
                if_true, pyLen, hpos, pySub0, jget, typeName]
              rfl
          | str s2 =>
              refine Or.inr ⟨.attributeError "\x27str\x27 object has no attribute \x27get\x27", ?_, by decide⟩
              simp only [photosBlock, pyTruthy, List.isEmpty_cons, Bool.not_false,
                if_true, pyLen, hpos, pySub0, jget, typeName]
              rfl
          | arr ys =>
              refine Or.inr ⟨.attributeError "\x27list\x27 object has no attribute \x27get\x27", ?_, by decide⟩
              simp only [photosBlock, pyTruthy, List.isEmpty_cons, Bool.not_false,
                if_true, pyLen, hpos, pySub0, jget, typeName]
              rfl
  | obj kvs =>
      cases kvs with
      | nil => exact Or.inl ⟨.null, rfl⟩
      | cons kv kt =>
          refine Or.inr ⟨.keyError "0", ?_, by decide⟩
          simp only [photosBlock, pyTruthy, List.isEmpty_cons, Bool.not_false,
            if_true, pyLen, pySub0]
          simp

/-- A record returned by the parse body always carries the truthy title that
passed the mandatory-title check. -/
theorem parseBody_ok_title (j : Json) (r : ListingRecord) (h : parseBody j = .ok r) :
    pyTruthy r.title = true := by
  unfold parseBody at h
  repeat' split at h
  all_goals cases h
  all_goals simp_all

/-- C5: a record returned by parse_listing_data always carries a truthy
(non-empty) title; a payload whose listing object has an empty or missing
title fails with a ParseError whose message differs from the
listing-key-not-found message; and a payload whose ROOT_QUERY has no
`listing(` key fails with exactly that listing-key-not-found ParseError. -/
theorem c5_title_invariant :
    (∀ (j : Json) (rec : ListingRecord),
      parse_listing_data j = .ok rec → pyTruthy rec.title = true) ∧
    (∀ (j props pp ist rq : Json) (rqKvs : List (String × Json))
       (kvp : String × Json) (L : List (String × Json)) (tj : Json),
      jindex j "props" = .ok props →
      jindex props "pageProps" = .ok pp →
      jindex pp "initialApolloState" = .ok ist →
      jindex ist "ROOT_QUERY" = .ok rq →
      pyKeys rq = .ok rqKvs →
      rqKvs.find? (fun kv => strStartsWith kv.1 "listing(") = some kvp →
      kvp.2 = .obj L →
      (alistFind L "title").getD (.str "") = tj →
      pyTruthy tj = false →
      ∃ m, parse_listing_data j = .error (.parseError m) ∧ m ≠ listingNotFoundMsg) ∧
    (∀ (j props pp ist rq : Json) (rqKvs : List (String × Json)),
      jindex j "props" = .ok props →
      jindex props "pageProps" = .ok pp →
      jindex pp "initialApolloState" = .ok ist →
      jindex ist "ROOT_QUERY" = .ok rq →
      pyKeys rq = .ok rqKvs →
      rqKvs.find? (fun kv => strStartsWith kv.1 "listing(") = none →
      parse_listing_data j = .error (.parseError listingNotFoundMsg)) := by
  refine ⟨?_, ?_, ?_⟩
  · intro j rec h
    unfold parse_listing_data at h
    cases hb : parseBody j with
    | error e =>
        simp only [hb] at h
        cases h
    | ok r =>
        simp only [hb] at h
        injection h with h2
        rw [← h2]
        exact parseBody_ok_title j r hb
  · intro j props pp ist rq rqKvs kvp L tj h1 h2 h3 h4 h5 h6 hkv htitle htruthy
    unfold parse_listing_data parseBody
    rcases photosBlock_not_nf ((alistFind L "photos").getD (.arr [])) with ⟨v, hv⟩ | ⟨pe, hpe, hne⟩
    · simp only [h1, h2, h3, h4, h5, h6, hkv, jget, htitle, hv, htruthy, Bool.not_false,
        if_true, wrapParseExc]
      exact ⟨"Error extracting listing data: Title not found in listing data", rfl, by decide⟩
    · simp only [h1, h2, h3, h4, h5, h6, hkv, jget, hpe]
      obtain ⟨mm, hmm⟩ : ∃ mm, wrapParseExc pe = .parseError mm := by
        cases pe <;> exact ⟨_, rfl⟩
      refine ⟨mm, by rw [hmm], fun hq => hne (by rw [hmm, hq])⟩
  · intro j props pp ist rq rqKvs h1 h2 h3 h4 h5 h6
    unfold parse_listing_data parseBody
    simp only [h1, h2, h3, h4, h5, h6]
    rfl

/-- C5 witness: the invariant instantiated on the well-formed Couch payload, on
a titleless-listing payload, and on a payload without any listing key. -/
theorem c5_witness :
    pyTruthy recordC6.title = true ∧
    (∃ m, parse_listing_data payloadNoTitle = .error (.parseError m) ∧
          m ≠ listingNotFoundMsg) ∧
    parse_listing_data payloadNoListing = .error (.parseError listingNotFoundMsg) :=
  ⟨c5_title_invariant.1 payloadC6 recordC6 rfl,
   c5_title_invariant.2.1 payloadNoTitle _ _ _ _ _ _ _ (.str "")
     rfl rfl rfl rfl rfl rfl rfl rfl rfl,
   c5_title_invariant.2.2 payloadNoListing _ _ _ _ _ rfl rfl rfl rfl rfl rfl⟩

/-- C3 counterexample: with photos present but detailFull missing, the parse
succeeds yet first_image_url is the empty string, not null as claimed. -/
theorem c3_counterexample :
    parse_listing_data payloadC3 =
      .ok { title := .str "T", description := .str "", first_image_url := .str "",
            price := .str "", location := .str "", seller_name := .str "",
            listing_id := .str "" } ∧
    Json.str "" ≠ Json.null := by
  refine ⟨rfl, ?_⟩
  intro h
  cases h

/-- C3 (amended): for a payload with a truthy title whose remaining fields
(location chain, seller resolution) extract without error, a missing image at
any nesting level never raises: a missing `photos` key or an empty photos list
yields a null first_image_url, while a first photo lacking `detailFull`, or a
`detailFull` object lacking `url`, yields the EMPTY-STRING first_image_url —
parse_listing_data succeeds in every such case. -/
theorem c3_image_guarding
    (j props pp ist rq : Json) (rqKvs : List (String × Json))
    (kvp : String × Json) (L : List (String × Json)) (tj loc sn : Json)
    (h1 : jindex j "props" = .ok props)
    (h2 : jindex props "pageProps" = .ok pp)
    (h3 : jindex pp "initialApolloState" = .ok ist)
    (h4 : jindex ist "ROOT_QUERY" = .ok rq)
    (h5 : pyKeys rq = .ok rqKvs)
    (h6 : rqKvs.find? (fun kv => strStartsWith kv.1 "listing(") = some kvp)
    (hkv : kvp.2 = .obj L)
    (htitle : (alistFind L "title").getD (.str "") = tj)
    (htruthy : pyTruthy tj = true)
    (hloc : jget ((alistFind L "locationDetails").getD (.obj [])) "locationName" (.str "") = .ok loc)
    (hsell : resolveSeller ist (.obj L) = .ok sn) :
    ((alistFind L "photos" = none ∨ alistFind L "photos" = some (.arr [])) →
      parse_listing_data j = .ok
        { title := tj, description := (alistFind L "description").getD (.str ""),
          first_image_url := .null, price := (alistFind L "price").getD (.str ""),
          location := loc, seller_name := sn,
          listing_id := (alistFind L "listingId").getD (.str "") }) ∧
    (∀ (fkvs : List (String × Json)) (rest : List Json),
      alistFind L "photos" = some (.arr (.obj fkvs :: rest)) →
      (alistFind fkvs "detailFull" = none ∨
       ∃ dkvs, alistFind fkvs "detailFull" = some (.obj dkvs) ∧
               alistFind dkvs "url" = none) →
      parse_listing_data j = .ok
        { title := tj, description := (alistFind L "description").getD (.str ""),
          first_image_url := .str "", price := (alistFind L "price").getD (.str ""),
          location := loc, seller_name := sn,
          listing_id := (alistFind L "listingId").getD (.str "") }) := by
  have hjget_obj : ∀ (kvs : List (String × Json)) (k : String) (d : Json),
      jget (.obj kvs) k d = .ok ((alistFind kvs k).getD d) := fun _ _ _ => rfl
  constructor
  · intro hphotos
    have hph : (alistFind L "photos").getD (.arr []) = .arr [] := by
      rcases hphotos with h | h <;> simp [h]
    have himgA : photosBlock (.arr []) = .ok .null := rfl
    unfold parse_listing_data parseBody
    simp only [h1, h2, h3, h4, h5, h6, hkv, hjget_obj, htitle, hph, himgA, htruthy,
      Bool.not_true, Bool.false_eq_true, if_false, hloc, hsell]
  · intro fkvs rest hphotos hdf
    have hph : (alistFind L "photos").getD (.arr []) = .arr (.obj fkvs :: rest) := by
      simp [hphotos]
    have hpos : 0 < (Json.obj fkvs :: rest).length := by simp
    have himg : photosBlock (.arr (.obj fkvs :: rest)) = .ok (.str "") := by
      rcases hdf with hnone | ⟨dkvs, hsome, hurl⟩
      · have hdfv : (alistFind fkvs "detailFull").getD (.obj []) = .obj [] := by
          simp [hnone]
        simp only [photosBlock, pyTruthy, List.isEmpty_cons, Bool.not_false, if_true,
          pyLen, hpos, pySub0, hjget_obj, hdfv]
        rfl
      · have hdfv : (alistFind fkvs "detailFull").getD (.obj []) = .obj dkvs := by
          simp [hsome]
        simp only [photosBlock, pyTruthy, List.isEmpty_cons, Bool.not_false, if_true,
          pyLen, hpos, pySub0, hjget_obj, hdfv, hurl, Option.getD_none]
    unfold parse_listing_data parseBody
    simp only [h1, h2, h3, h4, h5, h6, hkv, hjget_obj, htitle, hph, himg, htruthy,
      Bool.not_true, Bool.false_eq_true, if_false, hloc, hsell]

/-- C3 witness: the guarded image extraction instantiated on a photo-less
payload (null image URL) and on a payload whose only photo lacks detailFull
(empty-string image URL). -/
theorem c3_witness :
    parse_listing_data payloadNoPhotos =
      .ok { title := .str "T", description := .str "", first_image_url := .null,
            price := .str "", location := .str "", seller_name := .str "",
            listing_id := .str "" } ∧
    parse_listing_data payloadC3 =
      .ok { title := .str "T", description := .str "", first_image_url := .str "",
            price := .str "", location := .str "", seller_name := .str "",
            listing_id := .str "" } :=
  ⟨(c3_image_guarding payloadNoPhotos _ _ _ _ _ _ _ (.str "T") (.str "") (.str "")
      rfl rfl rfl rfl rfl rfl rfl rfl rfl rfl rfl).1 (Or.inl rfl),
   (c3_image_guarding payloadC3 _ _ _ _ _ _ _ (.str "T") (.str "") (.str "")
      rfl rfl rfl rfl rfl rfl rfl rfl rfl rfl rfl).2 [] [] rfl (Or.inl rfl)⟩

end Scraper
